import Mathlib

/-!
Verification of the method/notification dispatch layer of the jsonrpc
repository (`src/core/src/calls.rs`): the `Metadata` capability, the
`RpcMethodSimple` / `RpcMethod` / `RpcNotificationSimple` / `RpcNotification`
contracts, the `RemoteProcedure` registry entry with its `Debug` rendering and
`Clone`, and the blanket functional adapters turning plain functions into
contract implementations.
-/

namespace JsonrpcCalls

/-- Modelled from the spec: `types::Params` (the `types` crate is not under
src/): opaque structured call input, caller-owned.  Represented as an opaque
one-field wrapper. -/
structure Params where
  data : String
deriving DecidableEq, Repr

/-- Modelled from the spec: `types::Value` (not under src/): opaque structured
successful output. -/
structure Value where
  data : String
deriving DecidableEq, Repr

/-- Modelled from the spec: `types::Error` (not under src/): structured failure
description (code/message), mutually exclusive with a successful `Value`. -/
structure Error where
  code : Int
  message : String
deriving DecidableEq, Repr

/-- Modelled from the spec: the Result-or-Error outcome an asynchronous
computation resolves to — exactly one of a successful `Value` or an `Error`. -/
inductive Outcome where
  | ok (v : Value)
  | err (e : Error)
deriving DecidableEq, Repr

/-- Modelled from the spec: the external asynchronous-computation abstraction
(`futures::Future<Item = Value, Error = Error>`): a value representing a
not-yet-complete computation that resolves to a Result-or-Error outcome.  In
the pure embedding a computation is observed through its unique resolution. -/
structure FutureVE where
  resolve : Outcome
deriving DecidableEq, Repr

/-- Modelled from the spec: `futures::IntoFuture<Item = Value, Error = Error>`
(external collaborator): types convertible into an asynchronous computation
resolving to Result-or-Error. -/
class IntoFutureVE (I : Type) where
  into_future : I → FutureVE

/-- A computation converts to itself (the identity `IntoFuture` impl). -/
instance : IntoFutureVE FutureVE :=
  ⟨id⟩

/-- Modelled from the spec: the computation constructible directly from an
immediately-available Result-or-Error value (`futures::future::result`). -/
def futureResult : Except Error Value → FutureVE
  | .ok v => ⟨.ok v⟩
  | .error e => ⟨.err e⟩

/-- An immediately-available `Result` converts to the immediate-value
computation (the `IntoFuture` impl for `Result`). -/
instance : IntoFutureVE (Except Error Value) :=
  ⟨futureResult⟩

/-- Modelled from the spec: `BoxFuture<Value>` (declared in the crate root,
not under src/): the single uniform type-erased boxed computation type. -/
structure BoxFutureVE where
  resolve : Outcome
deriving DecidableEq, Repr

/-- `Box::new` on a computation: the type-erasure of a computation into the
uniform boxed type. -/
def boxNew (fut : FutureVE) : BoxFutureVE :=
  ⟨fut.resolve⟩

/-- Cost-instrumented `boxNew`: the boxed computation together with the number
of computation-erasure (boxing) operations performed — one per `Box::new`. -/
def boxNewCounted (fut : FutureVE) : BoxFutureVE × Nat :=
  (boxNew fut, 1)

/-- Rust's `Clone` capability: duplicating a value yields an independent handle
usable alongside the original. -/
class Clone (α : Type) where
  clone : α → α

/-- `pub trait Metadata: Clone + 'static {}` (calls.rs line 9).  The
`'static` (unbounded-lifetime) bound has no counterpart in the pure
embedding. -/
class Metadata (α : Type) extends Clone α

/-- A heap-owned wrapper (Rust's `Box<T>`): owns one value of the wrapped
type. -/
structure Box (α : Type) where
  value : α

/-- A shared-ownership wrapper (Rust's `Rc<T>`): a reference-counted handle to
one shared underlying value. -/
structure Rc (α : Type) where
  value : α

/-- A shared-ownership wrapper (Rust's `Arc<T>`): an atomically
reference-counted handle to one shared underlying value. -/
structure Arc (α : Type) where
  value : α

/-- `()` is `Copy`, so cloning it is the identity. -/
instance : Clone Unit :=
  ⟨id⟩

/-- Rust std: `Option<T>` is `Clone` when `T` is, cloning elementwise. -/
instance {α : Type} [Clone α] : Clone (Option α) :=
  ⟨fun o => match o with
    | none => none
    | some a => some (Clone.clone a)⟩

/-- Rust std: `Box<T>` is `Clone` when `T` is, deep-cloning the owned value. -/
instance {α : Type} [Clone α] : Clone (Box α) :=
  ⟨fun b => ⟨Clone.clone b.value⟩⟩

/-- Rust std: `Rc<T>` is `Clone` for every `T`: cloning bumps the reference
count and returns a handle to the same underlying value. -/
instance {α : Type} : Clone (Rc α) :=
  ⟨fun r => r⟩

/-- Rust std: `Arc<T>` is `Clone` for every `T`: cloning bumps the reference
count and returns a handle to the same underlying value. -/
instance {α : Type} : Clone (Arc α) :=
  ⟨fun a => a⟩

/-- `String` is `Clone` (an owned copy, observationally the same string). -/
instance : Clone String :=
  ⟨id⟩

/-- `impl Metadata for ()` (calls.rs line 10). -/
instance : Metadata Unit := {}

/-- `impl<T: Metadata> Metadata for Option<T>` (calls.rs line 11). -/
instance {α : Type} [Metadata α] : Metadata (Option α) := {}

/-- `impl<T: Metadata> Metadata for Box<T>` (calls.rs line 12). -/
instance {α : Type} [Metadata α] : Metadata (Box α) := {}

/-- `impl<T: 'static> Metadata for Rc<T>` (calls.rs line 13): no `Metadata` or
`Clone` bound on the wrapped type. -/
instance {α : Type} : Metadata (Rc α) := {}

/-- `impl<T: 'static> Metadata for Arc<T>` (calls.rs line 14): no `Metadata`
or `Clone` bound on the wrapped type. -/
instance {α : Type} : Metadata (Arc α) := {}

/-- The blanket `RpcMethodSimple` impl for any `F: Fn(Params) -> I` with
`I: IntoFuture<Item = Value, Error = Error>` (calls.rs lines 64-73):
`call` is `self(params).into_future()`. -/
def rpcMethodSimpleCall {I : Type} [IntoFutureVE I]
    (f : Params → I) (params : Params) : FutureVE :=
  IntoFutureVE.into_future (f params)

/-- The blanket `RpcNotificationSimple` impl for any `F: Fn(Params)`
(calls.rs lines 75-81): `execute` is `self(params)`. -/
def rpcNotificationSimpleExecute (f : Params → Unit) (params : Params) : Unit :=
  f params

/-- The blanket `RpcMethod<T>` impl for any `F: Fn(Params, T) -> I`
(calls.rs lines 83-92): `call` is `Box::new(self(params, meta).into_future())`. -/
def rpcMethodCall {T I : Type} [IntoFutureVE I]
    (f : Params → T → I) (params : Params) (meta : T) : BoxFutureVE :=
  boxNew (IntoFutureVE.into_future (f params meta))

/-- Cost-instrumented variant of `rpcMethodCall`: the same boxed computation
paired with the number of computation-erasure (`Box::new`) operations this
single invocation of `call` performs. -/
def rpcMethodCallCounted {T I : Type} [IntoFutureVE I]
    (f : Params → T → I) (params : Params) (meta : T) : BoxFutureVE × Nat :=
  boxNewCounted (IntoFutureVE.into_future (f params meta))

/-- The blanket `RpcNotification<T>` impl for any `F: Fn(Params, T)`
(calls.rs lines 94-101): `execute` is `self(params, meta)`. -/
def rpcNotificationExecute {T : Type} (f : Params → T → Unit)
    (params : Params) (meta : T) : Unit :=
  f params meta

/-- A type-erased context-aware method handler (`dyn RpcMethod<T>`), observed
through its `call` function returning the uniform boxed computation. -/
structure RpcMethodObj (T : Type) where
  call : Params → T → BoxFutureVE

/-- A type-erased context-aware notification handler
(`dyn RpcNotification<T>`), observed through its `execute` function. -/
structure RpcNotificationObj (T : Type) where
  execute : Params → T → Unit

/-- `pub enum RemoteProcedure<T: Metadata>` (calls.rs lines 43-51): a method
call, a notification, or an alias to another method name.  The handler
variants hold shared (`Arc`) references to type-erased handlers. -/
inductive RemoteProcedure (T : Type) where
  | Method (handler : Arc (RpcMethodObj T))
  | Notification (handler : Arc (RpcNotificationObj T))
  | Alias (target : String)

/-- `#[derive(Clone)]` on `RemoteProcedure` (calls.rs line 42): clones the
variant's field — for `Method` and `Notification` that is the `Arc` clone,
which duplicates only the shared reference. -/
instance {T : Type} : Clone (RemoteProcedure T) :=
  ⟨fun rp => match rp with
    | .Method h => .Method (Clone.clone h)
    | .Notification h => .Notification (Clone.clone h)
    | .Alias s => .Alias (Clone.clone s)⟩

/-- One character of Rust's `Debug` formatting for strings: `"`, `\` and the
common control characters are escaped, other characters pass through.
Modelled from the spec: the `{:?}` formatter for `String` lives in the Rust
standard library, external to the repository (the remaining `\u` escapes of
exotic control characters are not modelled). -/
def escapeDebugChar (c : Char) : List Char :=
  if c = '"' then ['\\', '"']
  else if c = '\\' then ['\\', '\\']
  else if c = '\n' then ['\\', 'n']
  else if c = '\r' then ['\\', 'r']
  else if c = '\t' then ['\\', 't']
  else [c]

/-- Rust's `Debug` rendering of a `String` (the `{:?}` specifier): the string
between double quotes, with escapes applied characterwise. -/
def rustDebugString (s : String) : String :=
  ⟨'"' :: (s.data.map escapeDebugChar).flatten ++ ['"']⟩

/-- `impl<T: Metadata> fmt::Debug for RemoteProcedure<T>` (calls.rs lines
53-62): `Method(..)` renders as `<method>`, `Notification(..)` as
`<notification>`, and `Alias(ref alias)` as `alias => {:?}` of the target. -/
def RemoteProcedure.debugFmt {T : Type} : RemoteProcedure T → String
  | .Method _ => "<method>"
  | .Notification _ => "<notification>"
  | .Alias a => "alias => " ++ rustDebugString a

/-- Modelled from the spec: the external dispatcher's `invoke` on a Method
entry — given parameters and a metadata value, obtain the contract's
computation; non-Method entries yield none (alias hops and notification
dispatch are the external registry's responsibility). -/
def RemoteProcedure.invokeMethod {T : Type} :
    RemoteProcedure T → Params → T → Option BoxFutureVE
  | .Method h, p, m => some (h.value.call p m)
  | _, _, _ => none

/-- A sample type-erased method handler, for concrete instantiations. -/
def sampleMethodObj : Arc (RpcMethodObj Unit) :=
  ⟨⟨fun _ _ => ⟨Outcome.ok ⟨"ok"⟩⟩⟩⟩

/-- A sample type-erased notification handler, for concrete instantiations. -/
def sampleNotificationObj : Arc (RpcNotificationObj Unit) :=
  ⟨⟨fun _ _ => ()⟩⟩

/-- Characters the Debug escaping leaves unchanged pass through `flatten`
untouched. -/
theorem flatten_map_escape_of_plain (L : List Char)
    (h : ∀ c ∈ L, escapeDebugChar c = [c]) :
    (L.map escapeDebugChar).flatten = L := by
  induction L with
  | nil => rfl
  | cons c cs ih =>
      simp only [List.map_cons, List.flatten_cons,
        h c (List.mem_cons_self c cs),
        ih fun d hd => h d (List.mem_cons_of_mem c hd)]
      rfl

/-- C1: wrapping a plain function via the functional adapters (the blanket
`RpcMethodSimple` impl for `Fn(Params) -> I` and the blanket `RpcMethod<T>`
impl for `Fn(Params, T) -> I`) and invoking `call` yields exactly the
Result-or-Error outcome of invoking the function directly. -/
theorem c1_functional_adapter_transparent {I T : Type} [IntoFutureVE I]
    (f : Params → I) (g : Params → T → I) (p : Params) (m : T) :
    (rpcMethodSimpleCall f p).resolve
        = (IntoFutureVE.into_future (f p)).resolve ∧
    (rpcMethodCall g p m).resolve
        = (IntoFutureVE.into_future (g p m)).resolve :=
  ⟨rfl, rfl⟩

/-- C2 counterexample: for the alias target `a"b` (which Debug escaping
rewrites to `a\"b`), the Debug rendering of the Alias entry does not contain
the target name as a substring — the claim as stated fails. -/
theorem c2_counterexample :
    ¬ List.IsInfix (String.data "a\"b")
      (String.data (RemoteProcedure.Alias "a\"b" :
        RemoteProcedure Unit).debugFmt) := by
  decide

/-- C2 (amended): a Method entry renders as the fixed string `<method>`
independent of the stored handler, a Notification entry as the distinct
fixed string `<notification>` independent of the stored handler, and an
Alias(s) rendering contains the target name s verbatim whenever s contains no
character requiring Debug escaping (in general it shows the escaped form of s
between quotes). -/
theorem c2_debug_rendering {T : Type} (h : Arc (RpcMethodObj T))
    (n : Arc (RpcNotificationObj T)) (s : String)
    (hs : ∀ c ∈ s.data, escapeDebugChar c = [c]) :
    (RemoteProcedure.Method h).debugFmt = "<method>" ∧
    (RemoteProcedure.Notification n).debugFmt = "<notification>" ∧
    ("<method>" : String) ≠ "<notification>" ∧
    List.IsInfix s.data
      (String.data (RemoteProcedure.Alias s : RemoteProcedure T).debugFmt) := by
  refine ⟨rfl, rfl, by decide, ?_⟩
  refine ⟨String.data "alias => " ++ ['"'], ['"'], ?_⟩
  show String.data "alias => " ++ ['"'] ++ s.data ++ ['"']
      = String.data ("alias => " ++ rustDebugString s)
  have hjoin : (s.data.map escapeDebugChar).flatten = s.data :=
    flatten_map_escape_of_plain s.data hs
  show String.data "alias => " ++ ['"'] ++ s.data ++ ['"']
      = String.data "alias => " ++ ('"' :: (s.data.map escapeDebugChar).flatten ++ ['"'])
  rw [hjoin]
  simp

/-- C2 witness: the amended rendering facts at a concrete Method handler, a
concrete Notification handler and the escape-free alias target `foo`. -/
theorem c2_debug_rendering_witness :
    (RemoteProcedure.Method sampleMethodObj).debugFmt = "<method>" ∧
    (RemoteProcedure.Notification sampleNotificationObj).debugFmt
        = "<notification>" ∧
    ("<method>" : String) ≠ "<notification>" ∧
    List.IsInfix (String.data "foo")
      (String.data (RemoteProcedure.Alias "foo" :
        RemoteProcedure Unit).debugFmt) :=
  c2_debug_rendering sampleMethodObj sampleNotificationObj "foo" (by decide)

/-- C3: if the computation obtained from the wrapped function resolves to an
Error, the computation returned by the adapter's `call` resolves to exactly
that same Error, unchanged — for both the simple and the context-aware
functional adapters. -/
theorem c3_error_propagation {I T : Type} [IntoFutureVE I]
    (f : Params → I) (g : Params → T → I) (p : Params) (m : T)
    (e e2 : Error)
    (hf : (IntoFutureVE.into_future (f p)).resolve = Outcome.err e)
    (hg : (IntoFutureVE.into_future (g p m)).resolve = Outcome.err e2) :
    (rpcMethodSimpleCall f p).resolve = Outcome.err e ∧
    (rpcMethodCall g p m).resolve = Outcome.err e2 :=
  ⟨hf, hg⟩

/-- C3 witness: concrete always-failing functions, with the Error carried
through the adapters unchanged. -/
theorem c3_error_propagation_witness :
    (rpcMethodSimpleCall
        (fun _ => (Except.error ⟨1, "boom"⟩ : Except Error Value))
        ⟨"p"⟩).resolve = Outcome.err ⟨1, "boom"⟩ ∧
    (rpcMethodCall
        (fun _ (_ : Unit) => (Except.error ⟨2, "bad"⟩ : Except Error Value))
        ⟨"p"⟩ ()).resolve = Outcome.err ⟨2, "bad"⟩ :=
  c3_error_propagation
    (fun _ => (Except.error ⟨1, "boom"⟩ : Except Error Value))
    (fun _ (_ : Unit) => (Except.error ⟨2, "bad"⟩ : Except Error Value))
    ⟨"p"⟩ () ⟨1, "boom"⟩ ⟨2, "bad"⟩ rfl rfl

/-- C4: whenever T qualifies as Metadata, so do `Option T`, the heap-owned
wrapper `Box T`, the shared-ownership wrappers `Rc T` and `Arc T`, and the
unit type qualifies — all from the generic instances, with no per-type
re-declaration. -/
theorem c4_metadata_composability (T : Type) [Metadata T] :
    Nonempty (Metadata Unit) ∧ Nonempty (Metadata (Option T)) ∧
    Nonempty (Metadata (Box T)) ∧ Nonempty (Metadata (Rc T)) ∧
    Nonempty (Metadata (Arc T)) :=
  ⟨⟨inferInstance⟩, ⟨inferInstance⟩, ⟨inferInstance⟩, ⟨inferInstance⟩,
    ⟨inferInstance⟩⟩

/-- C5: cloning a Method entry duplicates only the shared `Arc` reference:
the clone equals the original entry, and invoking two clones with identical
Parameters and Metadata yields exactly the one shared handler's results. -/
theorem c5_clone_shares_handler {T : Type} (h : Arc (RpcMethodObj T))
    (p : Params) (m : T) :
    Clone.clone (RemoteProcedure.Method h) = RemoteProcedure.Method h ∧
    (Clone.clone (RemoteProcedure.Method h)).invokeMethod p m
        = some (h.value.call p m) ∧
    (Clone.clone (Clone.clone (RemoteProcedure.Method h))).invokeMethod p m
        = (Clone.clone (RemoteProcedure.Method h)).invokeMethod p m :=
  ⟨rfl, rfl, rfl⟩

/-- C6: for every simple-Method handler obtained from the functional adapter
and every Parameters value, the computation returned by `call` resolves to
exactly one of a successful Value or an Error — never both, never neither. -/
theorem c6_exactly_one_outcome {I : Type} [IntoFutureVE I]
    (f : Params → I) (p : Params) :
    Xor' (∃ v, (rpcMethodSimpleCall f p).resolve = Outcome.ok v)
         (∃ e, (rpcMethodSimpleCall f p).resolve = Outcome.err e) := by
  cases (rpcMethodSimpleCall f p).resolve with
  | ok v =>
      refine Or.inl ⟨⟨v, rfl⟩, ?_⟩
      rintro ⟨e, he⟩
      exact Outcome.noConfusion he
  | err e =>
      refine Or.inr ⟨⟨e, rfl⟩, ?_⟩
      rintro ⟨v, hv⟩
      exact Outcome.noConfusion hv

/-- C7: `execute` on a wrapped Notification handler — simple or context-aware
— returns the unit value: there is no result or failure channel back to the
caller. -/
theorem c7_notification_no_result {T : Type} (f : Params → Unit)
    (g : Params → T → Unit) (p : Params) (m : T) :
    rpcNotificationSimpleExecute f p = () ∧
    rpcNotificationExecute g p m = () :=
  ⟨rfl, rfl⟩

/-- C8 counterexample: one concrete invocation of the context-aware adapter's
`call` performs a nonzero number of computation-erasure (boxing) operations —
the erasure of the returned computation is not confined to registration
time. -/
theorem c8_counterexample :
    ¬ (rpcMethodCallCounted
        (fun _ (_ : Unit) => (Except.ok ⟨"v"⟩ : Except Error Value))
        ⟨"p"⟩ ()).2 = 0 := by
  decide

/-- C8 (amended): the type-erasure of the returned computation to the uniform
boxed type is performed anew on each invocation of `call` — exactly one
boxing per invocation, the `Box::new` in the blanket impl's body; what is
erased once at registration is the handler itself, not the returned
computation. -/
theorem c8_boxing_per_invocation {T I : Type} [IntoFutureVE I]
    (f : Params → T → I) (p : Params) (m : T) :
    rpcMethodCallCounted f p m = (rpcMethodCall f p m, 1) :=
  rfl

/-- C9: for every wrapped type T, the shared-ownership wrappers `Rc T` and
`Arc T` qualify as Metadata with no Metadata or Clone requirement on T
itself. -/
theorem c9_shared_wrappers_unconditional (T : Type) :
    Nonempty (Metadata (Rc T)) ∧ Nonempty (Metadata (Arc T)) :=
  ⟨⟨inferInstance⟩, ⟨inferInstance⟩⟩

/-- C10: the simple functional adapter accepts a plain synchronous function
returning an immediately-available Result-or-Error value, and `call` returns
the immediate-value computation built from the function's result. -/
theorem c10_sync_function_immediate (f : Params → Except Error Value)
    (p : Params) :
    rpcMethodSimpleCall f p = futureResult (f p) :=
  rfl

end JsonrpcCalls
